import Mathlib

/-!
Shallow embedding of the alx_polly polling application.

The embedding covers:
- the validation helpers of lib/validation.ts,
- the poll CRUD and voting operations of lib/poll-actions.ts, modelled
  against an explicit relational state (tables polls and poll_options),
- a Broadcast Hub connection registry (modelled from the spec, since the
  registry itself lives in the external ws library, not in this repository).

Modelling conventions:
- Database rows are Lean structures; a table is a List of rows.
- Supabase row ids (gen_random_uuid) are modelled by a fresh-id counter in
  the state; generated ids are pairwise distinct strings.
- Timestamps are natural numbers; the current instant is a parameter.
- JavaScript string trim and toLowerCase are modelled on the character list.
- A Supabase query ending in .single() succeeds exactly when one row matches.
- The PostgREST error paths that depend only on the data (no row / several
  rows for .single()) are modelled; transport failures are not.
- Audit timestamps (created_at on options, updated_at) are omitted: no
  operation ever branches on them.
-/

namespace AlxPolly

/-! ## Model of the JavaScript string operations used by the source -/

/-- Model of JavaScript String.prototype.trim: strip whitespace on both ends. -/
def jsTrim (s : String) : String :=
  ⟨((s.data.dropWhile Char.isWhitespace).reverse.dropWhile Char.isWhitespace).reverse⟩

/-- Model of JavaScript String.prototype.toLowerCase (ASCII range). -/
def jsToLower (s : String) : String :=
  ⟨s.data.map Char.toLower⟩

theorem jsTrim_empty : jsTrim "" = "" := rfl

/-! ## lib/validation.ts -/

/-- Result type of the validators in lib/validation.ts. -/
structure ValidationResult where
  isValid : Bool
  error : Option String
deriving DecidableEq

/-- validatePollTitle from lib/validation.ts. -/
def validatePollTitle (title : String) : ValidationResult :=
  if jsTrim title = "" then
    ⟨false, some "Poll title is required"⟩
  else if (jsTrim title).length < 3 then
    ⟨false, some "Poll title must be at least 3 characters long"⟩
  else if (jsTrim title).length > 200 then
    ⟨false, some "Poll title must be less than 200 characters"⟩
  else
    ⟨true, none⟩

/-- validatePollDescription from lib/validation.ts; the description argument
is present (JavaScript truthiness on the argument is handled at call sites). -/
def validatePollDescription (description : String) : ValidationResult :=
  if description.length > 1000 then
    ⟨false, some "Description must be less than 1000 characters"⟩
  else
    ⟨true, none⟩

/-- validatePollOption from lib/validation.ts. -/
def validatePollOption (opt : String) : ValidationResult :=
  if jsTrim opt = "" then
    ⟨false, some "Option text is required"⟩
  else if (jsTrim opt).length < 1 then
    ⟨false, some "Option text must be at least 1 character long"⟩
  else if (jsTrim opt).length > 100 then
    ⟨false, some "Option text must be less than 100 characters"⟩
  else
    ⟨true, none⟩

/-- The indexed per-option loop at the end of validatePollOptions. -/
def validateOptionsFrom : Nat → List String → ValidationResult
  | _, [] => ⟨true, none⟩
  | i, opt :: rest =>
    let r := validatePollOption opt
    if r.isValid then
      validateOptionsFrom (i + 1) rest
    else
      ⟨false, some ("Option " ++ toString (i + 1) ++ ": " ++ r.error.getD "")⟩

/-- validatePollOptions from lib/validation.ts: at least 2 options, at most
10, no duplicates after trimming and lowercasing (the JavaScript Set-size
test is modelled by comparing the deduplicated length), then each option
validated individually. -/
def validatePollOptions (options : List String) : ValidationResult :=
  if options.length < 2 then
    ⟨false, some "At least 2 options are required"⟩
  else if options.length > 10 then
    ⟨false, some "Maximum 10 options allowed"⟩
  else
    let trimmedOptions := options.map (fun opt => jsToLower (jsTrim opt))
    if trimmedOptions.dedup.length ≠ trimmedOptions.length then
      ⟨false, some "Duplicate options are not allowed"⟩
    else
      validateOptionsFrom 0 options

/-! ## Data model of lib/poll-actions.ts -/

/-- A row of the polls table. -/
structure PollRow where
  id : String
  title : String
  description : Option String
  created_by : String
  created_at : Nat
  expires_at : Option Nat
  is_active : Bool
deriving DecidableEq

/-- A row of the poll_options table. -/
structure OptionRow where
  id : String
  poll_id : String
  text : String
  votes : Nat
  order_index : Nat
deriving DecidableEq

/-- The datastore: both tables plus the fresh-id supply of the database. -/
structure DB where
  polls : List PollRow
  poll_options : List OptionRow
  nextId : Nat
deriving DecidableEq

/-- The Poll snapshot returned to callers (interface Poll). -/
structure Poll where
  id : String
  title : String
  description : Option String
  options : List OptionRow
  total_votes : Nat
  created_by : String
  created_at : Nat
  expires_at : Option Nat
  is_active : Bool
deriving DecidableEq

/-- interface CreatePollData; none models an absent (or empty, for the
truthiness tests in the source) optional field. -/
structure CreatePollData where
  title : String
  description : Option String
  options : List String
  expires_at : Option Nat
deriving DecidableEq

/-- interface UpdatePollData; none models an absent field. -/
structure UpdatePollData where
  title : Option String
  description : Option String
  options : Option (List String)
  expires_at : Option Nat
  is_active : Option Bool
deriving DecidableEq

/-- interface VoteData. -/
structure VoteData where
  poll_id : String
  option_id : String
deriving DecidableEq

/-- A PollOperationResult collapsed to its observable content: success with
data, or failure carrying the user-visible error message. -/
inductive PollResult (α : Type) where
  | ok (val : α)
  | err (message : String)
deriving DecidableEq

/-- Observer: does a result report success. -/
def isOkResult {α : Type} : PollResult α → Bool
  | PollResult.ok _ => true
  | PollResult.err _ => false

/-- Request context: the current time and the authenticated user session
(the Supabase auth collaborator is external to the repository). -/
structure Ctx where
  now : Nat
  authed : Bool
  userId : String
deriving DecidableEq

/-- A .single() Supabase query: some row exactly when one row matches. -/
def selectSingle {α : Type} (rows : List α) (pred : α → Bool) : Option α :=
  match rows.filter pred with
  | [r] => some r
  | _ => none

/-- Fresh id generation (gen_random_uuid in the schema): the id drawn from
counter n; distinct counters give distinct ids. -/
def genId (n : Nat) : String :=
  ⟨List.replicate (n + 1) 'u'⟩

theorem genId_length (n : Nat) : (genId n).length = n + 1 := by
  simp [genId, String.length]

theorem genId_injective : Function.Injective genId := by
  intro a b h
  have hl : (genId a).length = (genId b).length := by rw [h]
  rw [genId_length, genId_length] at hl
  omega

/-! ## Input validation wrappers of lib/poll-actions.ts

The source builds a validationErrors record and reports success exactly when
no field collected an error; that success bit is modelled directly. -/

/-- validateCreatePollData from lib/poll-actions.ts: title, optional
description (skipped when absent or empty, per JavaScript truthiness),
options, and a provided expiration date must lie strictly in the future. -/
def validateCreatePollData (now : Nat) (d : CreatePollData) : Bool :=
  (validatePollTitle d.title).isValid
  && (match d.description with
      | some s => s.isEmpty || (validatePollDescription s).isValid
      | none => true)
  && (validatePollOptions d.options).isValid
  && (match d.expires_at with
      | some e => decide (now < e)
      | none => true)

/-- validateUpdatePollData from lib/poll-actions.ts: each field validated
only when provided. -/
def validateUpdatePollData (now : Nat) (u : UpdatePollData) : Bool :=
  (match u.title with
   | some t => (validatePollTitle t).isValid
   | none => true)
  && (match u.description with
      | some s => (validatePollDescription s).isValid
      | none => true)
  && (match u.options with
      | some os => (validatePollOptions os).isValid
      | none => true)
  && (match u.expires_at with
      | some e => decide (now < e)
      | none => true)

/-- validateVoteData from lib/poll-actions.ts: both ids must be non-empty
and non-blank. -/
def validateVoteData (v : VoteData) : Bool :=
  (v.poll_id != "" && jsTrim v.poll_id != "")
  && (v.option_id != "" && jsTrim v.option_id != "")

/-! ## Poll operations of lib/poll-actions.ts -/

/-- getPoll: select the poll row with its options via .single(); on success
the snapshot carries the option rows of the poll and their vote sum
(handleDatabaseError maps the no-row .single() failure, PGRST116, to the
Resource not found message). -/
def getPoll (pollId : String) (db : DB) : PollResult Poll :=
  match selectSingle db.polls (fun p => p.id == pollId) with
  | none => PollResult.err "Resource not found"
  | some p =>
    let opts := db.poll_options.filter (fun o => o.poll_id == pollId)
    PollResult.ok
      { id := p.id, title := p.title, description := p.description,
        options := opts, total_votes := (opts.map OptionRow.votes).sum,
        created_by := p.created_by, created_at := p.created_at,
        expires_at := p.expires_at, is_active := p.is_active }

/-- The paginated list result of getPolls. -/
structure PollListResult where
  polls : List Poll
  total : Nat
  page : Nat
  limit : Nat
deriving DecidableEq

/-- getPolls: optional creator filter, newest first, range pagination
(range from offset to offset plus limit minus one, inclusive), and each
returned poll carries its options and their vote sum. -/
def getPolls (page limit : Nat) (userId : Option String) (db : DB) :
    PollResult PollListResult :=
  let base := db.polls.filter (fun p =>
    match userId with
    | some u => p.created_by == u
    | none => true)
  let sorted := base.mergeSort (fun a b => decide (b.created_at ≤ a.created_at))
  let offset := (page - 1) * limit
  let selected := (sorted.drop offset).take limit
  let processed := selected.map (fun p =>
    let opts := db.poll_options.filter (fun o => o.poll_id == p.id)
    { id := p.id, title := p.title, description := p.description,
      options := opts, total_votes := (opts.map OptionRow.votes).sum,
      created_by := p.created_by, created_at := p.created_at,
      expires_at := p.expires_at, is_active := p.is_active : Poll })
  PollResult.ok { polls := processed, total := base.length, page := page, limit := limit }

/-- The description field actually stored: trimmed, and empty collapses to
null (pollData.description, optionally chained with trim, or null). -/
def storedDescription (d : Option String) : Option String :=
  match d with
  | some s => if jsTrim s = "" then none else some (jsTrim s)
  | none => none

/-- The option rows inserted for a list of option texts: the map with index
in createPoll and updatePoll, with ids drawn from the fresh-id supply
starting at base. -/
def insertedOptions (base : Nat) (pollId : String) (texts : List String) :
    List OptionRow :=
  texts.enum.map (fun pr =>
    { id := genId (base + pr.1), poll_id := pollId, text := jsTrim pr.2,
      votes := 0, order_index := pr.1 })

/-- createPoll from lib/poll-actions.ts: validate, authenticate, insert the
poll row, insert one option row per text with zero votes, and return the
complete poll with total_votes zero. -/
def createPoll (ctx : Ctx) (pd : CreatePollData) (db : DB) :
    PollResult Poll × DB :=
  if !validateCreatePollData ctx.now pd then
    (PollResult.err "Validation failed", db)
  else if !ctx.authed then
    (PollResult.err "Authentication required", db)
  else
    let pollId := genId db.nextId
    let pollRow : PollRow :=
      { id := pollId, title := jsTrim pd.title,
        description := storedDescription pd.description,
        created_by := ctx.userId, created_at := ctx.now,
        expires_at := pd.expires_at, is_active := true }
    let optionRows := insertedOptions (db.nextId + 1) pollId pd.options
    let db2 : DB :=
      { polls := db.polls ++ [pollRow],
        poll_options := db.poll_options ++ optionRows,
        nextId := db.nextId + 1 + pd.options.length }
    (PollResult.ok
      { id := pollRow.id, title := pollRow.title,
        description := pollRow.description, options := optionRows,
        total_votes := 0, created_by := pollRow.created_by,
        created_at := pollRow.created_at, expires_at := pollRow.expires_at,
        is_active := true }, db2)

/-- checkPollOwnership from lib/poll-actions.ts. The source computes user
as userId or else the authenticated user object (JavaScript truthiness on
the userId string), then fetches the poll row by id via .single() and
returns poll.created_by triple-equals user.id. When a non-empty userId
string is passed — which is how updatePoll and deletePoll call it — user
is that string, its id field is the undefined value, and a string
triple-equals undefined is false: ownership never holds on those paths.
Only when userId is absent or empty does user hold the authenticated user
object, whose id is the session user id. userIdField models user.id, with
none standing for undefined. -/
def checkPollOwnership (userId : Option String) (ctxUserId pollId : String)
    (db : DB) : Bool :=
  let userIdField : Option String :=
    match userId with
    | some uid => if uid = "" then some ctxUserId else none
    | none => some ctxUserId
  match selectSingle db.polls (fun p => p.id == pollId) with
  | none => false
  | some p =>
    match userIdField with
    | some uid => p.created_by == uid
    | none => false

/-- The poll-row update assembled by updatePoll: each provided field
overwrites the stored one (expires_at can be set, not cleared). -/
def applyPollUpdate (u : UpdatePollData) (p : PollRow) : PollRow :=
  { p with
    title := (match u.title with | some t => jsTrim t | none => p.title),
    description := (match u.description with
                    | some _ => storedDescription u.description
                    | none => p.description),
    expires_at := (match u.expires_at with
                   | some e => some e
                   | none => p.expires_at),
    is_active := u.is_active.getD p.is_active }

/-- updatePoll from lib/poll-actions.ts: validate, authenticate, check
ownership — passing the authenticated user id string as the userId
argument of checkPollOwnership, exactly as the source does — update the
poll row (.single()), then either replace every option row of the poll by
fresh zero-vote rows (options provided) or read the existing rows ordered
by order_index; the snapshot carries the vote sum of the rows it
returns. -/
def updatePoll (ctx : Ctx) (pollId : String) (u : UpdatePollData) (db : DB) :
    PollResult Poll × DB :=
  if !validateUpdatePollData ctx.now u then
    (PollResult.err "Validation failed", db)
  else if !ctx.authed then
    (PollResult.err "Authentication required", db)
  else if !checkPollOwnership (some ctx.userId) ctx.userId pollId db then
    (PollResult.err "You can only update your own polls", db)
  else
    match selectSingle db.polls (fun p => p.id == pollId) with
    | none => (PollResult.err "Resource not found", db)
    | some oldRow =>
      let newRow := applyPollUpdate u oldRow
      let db1 : DB :=
        { db with polls := db.polls.map (fun p =>
            if p.id == pollId then applyPollUpdate u p else p) }
      match u.options with
      | some newTexts =>
        let kept := db1.poll_options.filter (fun o => !(o.poll_id == pollId))
        let optionRows := insertedOptions db.nextId pollId newTexts
        let db2 : DB :=
          { db1 with poll_options := kept ++ optionRows,
                     nextId := db.nextId + newTexts.length }
        (PollResult.ok
          { id := newRow.id, title := newRow.title,
            description := newRow.description, options := optionRows,
            total_votes := (optionRows.map OptionRow.votes).sum,
            created_by := newRow.created_by, created_at := newRow.created_at,
            expires_at := newRow.expires_at, is_active := newRow.is_active },
         db2)
      | none =>
        let opts := (db1.poll_options.filter (fun o => o.poll_id == pollId)).mergeSort
          (fun a b => decide (a.order_index ≤ b.order_index))
        (PollResult.ok
          { id := newRow.id, title := newRow.title,
            description := newRow.description, options := opts,
            total_votes := (opts.map OptionRow.votes).sum,
            created_by := newRow.created_by, created_at := newRow.created_at,
            expires_at := newRow.expires_at, is_active := newRow.is_active },
         db1)

/-- deletePoll from lib/poll-actions.ts: authenticate, check ownership,
delete the poll row; option rows go with it via the schema cascade. -/
def deletePoll (ctx : Ctx) (pollId : String) (db : DB) :
    PollResult Unit × DB :=
  if !ctx.authed then
    (PollResult.err "Authentication required", db)
  else if !checkPollOwnership (some ctx.userId) ctx.userId pollId db then
    (PollResult.err "You can only delete your own polls", db)
  else
    (PollResult.ok (),
     { db with polls := db.polls.filter (fun p => !(p.id == pollId)),
               poll_options := db.poll_options.filter (fun o => !(o.poll_id == pollId)) })

/-- The expiry test of voteOnPoll: poll.expires_at is set and strictly in
the past. -/
def pollExpired (now : Nat) (p : PollRow) : Bool :=
  match p.expires_at with
  | some e => decide (e < now)
  | none => false

/-- The write step of voteOnPoll in isolation: update poll_options set
votes to captured plus one where id equals the voted option id. The
written value is captured plus one, with captured the count read earlier
by the same call — the read-increment-write of the source, split out so
that interleavings of concurrent calls can be expressed. -/
def voteWritePhase (v : VoteData) (captured : Nat) (db : DB) : DB :=
  { db with poll_options := db.poll_options.map (fun o =>
      if o.id == v.option_id then { o with votes := captured + 1 } else o) }

/-- The read steps of voteOnPoll in isolation: input validation, auth, the
active-poll lookup, the expiry test and the option lookup; on success it
returns the option row whose count the call captured. -/
def voteCheckPhase (ctx : Ctx) (v : VoteData) (db : DB) : Option OptionRow :=
  if !validateVoteData v then none
  else if !ctx.authed then none
  else
    match selectSingle db.polls (fun p => p.id == v.poll_id && p.is_active) with
    | none => none
    | some poll =>
      if pollExpired ctx.now poll then none
      else selectSingle db.poll_options
        (fun o => o.id == v.option_id && o.poll_id == v.poll_id)

/-- voteOnPoll from lib/poll-actions.ts: validate the input, authenticate,
fetch the poll by id with is_active true (.single()), reject expired
polls, fetch the option by id and poll id (.single()), write the captured
count plus one into every option row with the voted id, and answer with
getPoll on the updated state. -/
def voteOnPoll (ctx : Ctx) (v : VoteData) (db : DB) : PollResult Poll × DB :=
  if !validateVoteData v then
    (PollResult.err "Validation failed", db)
  else if !ctx.authed then
    (PollResult.err "Authentication required", db)
  else
    match selectSingle db.polls (fun p => p.id == v.poll_id && p.is_active) with
    | none => (PollResult.err "Poll not found or inactive", db)
    | some poll =>
      if pollExpired ctx.now poll then
        (PollResult.err "This poll has expired", db)
      else
        match selectSingle db.poll_options
            (fun o => o.id == v.option_id && o.poll_id == v.poll_id) with
        | none => (PollResult.err "Invalid option", db)
        | some opt =>
          let db2 := voteWritePhase v opt.votes db
          (getPoll v.poll_id db2, db2)

/-- Sequential composition of repeated voteOnPoll calls. -/
def voteNTimes (ctx : Ctx) (v : VoteData) : Nat → DB → DB
  | 0, db => db
  | m + 1, db => voteNTimes ctx v m (voteOnPoll ctx v db).2

/-- Every call in a block of m sequential voteOnPoll calls succeeds. -/
def allVotesSucceed (ctx : Ctx) (v : VoteData) : Nat → DB → Prop
  | 0, _ => True
  | m + 1, db =>
    isOkResult (voteOnPoll ctx v db).1 = true
    ∧ allVotesSucceed ctx v m (voteOnPoll ctx v db).2

/-! ## Broadcast Hub -/

/-- Modelled from the spec: the Broadcast Hub connection registry. The
repository delegates the registry to the external ws library (the clients
set of WebSocketServer); only createWebSocketServer and broadcastVoteUpdate
appear in the source. Per the spec, register adds a connection to the
registry and unregister removes one, idempotently. Connections are opaque
handles, modelled as strings; the registry holds each at most once, as a
set does. -/
structure Hub where
  connections : List String
deriving DecidableEq

/-- Modelled from the spec: register adds a connection to the registry
(set semantics: already-present handles are not duplicated). -/
def Hub.register (c : String) (h : Hub) : Hub :=
  if c ∈ h.connections then h else { connections := h.connections ++ [c] }

/-- Modelled from the spec: unregister removes a connection from the
registry; removing an absent connection is a no-op. -/
def Hub.unregister (c : String) (h : Hub) : Hub :=
  { connections := h.connections.filter (fun x => x != c) }

/-! ## Observers and invariant predicates -/

/-- The polls table has pairwise distinct ids (the primary key of the
schema). -/
def pollIdsNodup (db : DB) : Prop :=
  (db.polls.map PollRow.id).Nodup

/-- The poll_options table has pairwise distinct ids (the primary key of
the schema). -/
def optionIdsNodup (db : DB) : Prop :=
  (db.poll_options.map OptionRow.id).Nodup

instance (db : DB) : Decidable (pollIdsNodup db) := by
  unfold pollIdsNodup; infer_instance

instance (db : DB) : Decidable (optionIdsNodup db) := by
  unfold optionIdsNodup; infer_instance

/-- The vote counts visible for an option id. -/
def optionVotes (db : DB) (oid : String) : List Nat :=
  (db.poll_options.filter (fun o => o.id == oid)).map OptionRow.votes

/-- Row-by-row comparison of an options table before and after an
operation: same rows in the same order, each keeping its identity and
never losing votes. -/
def noVoteLowered (before after : List OptionRow) : Prop :=
  List.Forall₂ (fun o o2 =>
    o2.id = o.id ∧ o2.poll_id = o.poll_id ∧ o.votes ≤ o2.votes) before after

/-! ## Supporting lemmas -/

theorem filter_eq_singleton_of_key {α : Type} (key : α → String)
    {pred : α → Bool} {l : List α} (hnd : (l.map key).Nodup) {x : α}
    (hx : x ∈ l) (hpx : pred x = true)
    (hkey : ∀ y, pred y = true → key y = key x) :
    l.filter pred = [x] := by
  induction l with
  | nil => simp at hx
  | cons a t ih =>
    rw [List.map_cons, List.nodup_cons] at hnd
    rcases List.mem_cons.1 hx with rfl | hxt
    · rw [List.filter_cons_of_pos hpx]
      have ht : t.filter pred = [] := by
        rw [List.filter_eq_nil_iff]
        intro y hy hpy
        exact hnd.1 (hkey y hpy ▸ List.mem_map_of_mem key hy)
      rw [ht]
    · have hpa : pred a = false := by
        by_contra hpa
        rw [Bool.not_eq_false] at hpa
        exact hnd.1 ((hkey a hpa).symm ▸ List.mem_map_of_mem key hxt)
      rw [List.filter_cons_of_neg (by simp [hpa])]
      exact ih hnd.2 hxt

theorem selectSingle_eq_some_of_key {α : Type} (key : α → String)
    {pred : α → Bool} {l : List α} (hnd : (l.map key).Nodup) {x : α}
    (hx : x ∈ l) (hpx : pred x = true)
    (hkey : ∀ y, pred y = true → key y = key x) :
    selectSingle l pred = some x := by
  unfold selectSingle
  rw [filter_eq_singleton_of_key key hnd hx hpx hkey]

theorem selectSingle_eq_none {α : Type} {pred : α → Bool} {l : List α}
    (h : ∀ y ∈ l, pred y = false) : selectSingle l pred = none := by
  unfold selectSingle
  rw [show l.filter pred = [] from List.filter_eq_nil_iff.2 (by simpa using h)]

theorem selectSingle_some_facts {α : Type} {l : List α} {pred : α → Bool}
    {x : α} (h : selectSingle l pred = some x) :
    l.filter pred = [x] ∧ x ∈ l ∧ pred x = true := by
  unfold selectSingle at h
  cases hf : l.filter pred with
  | nil => rw [hf] at h; exact absurd h (by simp)
  | cons a t =>
    cases t with
    | nil =>
      rw [hf] at h
      simp only [Option.some.injEq] at h
      subst h
      have hm : a ∈ l.filter pred := by
        rw [hf]; exact List.mem_singleton_self a
      exact ⟨rfl, (List.mem_filter.1 hm).1, (List.mem_filter.1 hm).2⟩
    | cons b t2 => rw [hf] at h; exact absurd h (by simp)

theorem dedup_length_ne {l : List String} (h : ¬ l.Nodup) :
    l.dedup.length ≠ l.length := by
  intro hlen
  exact h (List.dedup_eq_self.1 ((List.dedup_sublist l).eq_of_length hlen))

theorem validatePollOptions_short {os : List String} (h : os.length < 2) :
    (validatePollOptions os).isValid = false := by
  unfold validatePollOptions
  rw [if_pos h]

theorem validatePollOptions_long {os : List String} (h : 10 < os.length) :
    (validatePollOptions os).isValid = false := by
  unfold validatePollOptions
  rw [if_neg (by omega), if_pos (by omega)]

theorem validatePollOptions_dup {os : List String}
    (h : ¬ (os.map (fun o => jsToLower (jsTrim o))).Nodup) :
    (validatePollOptions os).isValid = false := by
  unfold validatePollOptions
  by_cases h2 : os.length < 2
  · rw [if_pos h2]
  · rw [if_neg h2]
    by_cases h10 : os.length > 10
    · rw [if_pos h10]
    · rw [if_neg h10]
      rw [if_pos (dedup_length_ne h)]

theorem validatePollOptions_min_length {os : List String}
    (h : (validatePollOptions os).isValid = true) : 2 ≤ os.length := by
  by_contra hlt
  rw [validatePollOptions_short (by omega)] at h
  exact absurd h (by simp)

theorem createPoll_rejects_options {ctx : Ctx} {pd : CreatePollData}
    {db : DB} (h : (validatePollOptions pd.options).isValid = false) :
    createPoll ctx pd db = (PollResult.err "Validation failed", db) := by
  unfold createPoll
  rw [if_pos (by simp [validateCreatePollData, h])]

theorem updatePoll_rejects_options {ctx : Ctx} {pollId : String}
    {u : UpdatePollData} {db : DB} {os : List String}
    (hos : u.options = some os)
    (h : (validatePollOptions os).isValid = false) :
    updatePoll ctx pollId u db = (PollResult.err "Validation failed", db) := by
  unfold updatePoll
  rw [if_pos (by simp [validateUpdatePollData, hos, h])]

theorem insertedOptions_length (base : Nat) (pid : String)
    (ts : List String) : (insertedOptions base pid ts).length = ts.length := by
  unfold insertedOptions
  rw [List.length_map, List.enum_length]

theorem insertedOptions_ids (base : Nat) (pid : String) (ts : List String) :
    (insertedOptions base pid ts).map OptionRow.id
      = (List.range ts.length).map (fun i => genId (base + i)) := by
  unfold insertedOptions
  rw [List.map_map]
  have h1 : OptionRow.id ∘ (fun pr : Nat × String =>
      ({ id := genId (base + pr.1), poll_id := pid, text := jsTrim pr.2,
         votes := 0, order_index := pr.1 } : OptionRow))
      = (fun i => genId (base + i)) ∘ Prod.fst := rfl
  rw [h1, ← List.map_map, List.enum_map_fst]

theorem insertedOptions_ids_nodup (base : Nat) (pid : String)
    (ts : List String) :
    ((insertedOptions base pid ts).map OptionRow.id).Nodup := by
  rw [insertedOptions_ids]
  exact (List.nodup_range ts.length).map
    (fun a b hab => by
      have := genId_injective hab
      omega)

theorem insertedOptions_votes (base : Nat) (pid : String)
    (ts : List String) :
    ((insertedOptions base pid ts).map OptionRow.votes).sum = 0 := by
  apply List.sum_eq_zero
  intro x hx
  rw [List.mem_map] at hx
  obtain ⟨o, ho, rfl⟩ := hx
  unfold insertedOptions at ho
  rw [List.mem_map] at ho
  obtain ⟨pr, _, rfl⟩ := ho
  rfl

/-! ## Concrete sample data used by the witnesses and counterexamples -/

def sampleCtx : Ctx := { now := 100, authed := true, userId := "u1" }

def samplePollRow : PollRow :=
  { id := "p1", title := "Best language", description := none,
    created_by := "u1", created_at := 0, expires_at := none,
    is_active := true }

def sampleOptionA : OptionRow :=
  { id := "o1", poll_id := "p1", text := "TS", votes := 0, order_index := 0 }

def sampleOptionB : OptionRow :=
  { id := "o2", poll_id := "p1", text := "JS", votes := 3, order_index := 1 }

def sampleDB : DB :=
  { polls := [samplePollRow],
    poll_options := [sampleOptionA, sampleOptionB], nextId := 5 }

/-- The snapshot getPoll returns for poll p1 of sampleDB. -/
def sampleSnapshot : Poll :=
  { id := "p1", title := "Best language", description := none,
    options := [sampleOptionA, sampleOptionB], total_votes := 3,
    created_by := "u1", created_at := 0, expires_at := none,
    is_active := true }

def samplePD : CreatePollData :=
  { title := "Best language", description := none,
    options := ["A", "B"], expires_at := none }

/-- The snapshot createPoll returns for samplePD against sampleDB. -/
def sampleCreated : Poll :=
  { id := "uuuuuu", title := "Best language", description := none,
    options := [{ id := "uuuuuuu", poll_id := "uuuuuu", text := "A",
                  votes := 0, order_index := 0 },
                { id := "uuuuuuuu", poll_id := "uuuuuu", text := "B",
                  votes := 0, order_index := 1 }],
    total_votes := 0, created_by := "u1", created_at := 100,
    expires_at := none, is_active := true }

/-- The state createPoll leaves behind for samplePD against sampleDB. -/
def sampleCreatedDB : DB :=
  { polls := [samplePollRow,
              { id := "uuuuuu", title := "Best language",
                description := none, created_by := "u1", created_at := 100,
                expires_at := none, is_active := true }],
    poll_options := [sampleOptionA, sampleOptionB,
                     { id := "uuuuuuu", poll_id := "uuuuuu", text := "A",
                       votes := 0, order_index := 0 },
                     { id := "uuuuuuuu", poll_id := "uuuuuu", text := "B",
                       votes := 0, order_index := 1 }],
    nextId := 8 }

/-! ## Claim C9 -/

/-- C9: every Poll value returned by getPoll, getPolls or createPoll has
its total_votes field equal to the sum of the votes fields of its options. -/
theorem C9_total_votes_sum :
    (∀ (pollId : String) (db : DB) (P : Poll),
       getPoll pollId db = PollResult.ok P →
       P.total_votes = (P.options.map OptionRow.votes).sum)
  ∧ (∀ (page lim : Nat) (userId : Option String) (db : DB)
       (res : PollListResult),
       getPolls page lim userId db = PollResult.ok res →
       ∀ P ∈ res.polls, P.total_votes = (P.options.map OptionRow.votes).sum)
  ∧ (∀ (ctx : Ctx) (pd : CreatePollData) (db : DB) (P : Poll) (db2 : DB),
       createPoll ctx pd db = (PollResult.ok P, db2) →
       P.total_votes = (P.options.map OptionRow.votes).sum) := by
  refine ⟨?_, ?_, ?_⟩
  · intro pollId db P h
    unfold getPoll at h
    cases hsel : selectSingle db.polls (fun p => p.id == pollId) with
    | none => rw [hsel] at h; exact absurd h (by simp)
    | some p =>
      rw [hsel] at h
      simp only [PollResult.ok.injEq] at h
      subst h
      rfl
  · intro page lim userId db res h P hP
    unfold getPolls at h
    simp only [PollResult.ok.injEq] at h
    subst h
    simp only [List.mem_map] at hP
    obtain ⟨p, hp, rfl⟩ := hP
    rfl
  · intro ctx pd db P db2 h
    unfold createPoll at h
    by_cases h1 : validateCreatePollData ctx.now pd
    · rw [if_neg (by simp [h1])] at h
      by_cases h2 : ctx.authed
      · rw [if_neg (by simp [h2])] at h
        simp only [Prod.mk.injEq, PollResult.ok.injEq] at h
        obtain ⟨h3, -⟩ := h
        subst h3
        simp [insertedOptions_votes]
      · rw [if_pos (by simp [h2])] at h; exact absurd h (by simp)
    · rw [if_pos (by simp [h1])] at h; exact absurd h (by simp)

/-- Witness for C9 at a concrete state: the snapshot of poll p1 in sampleDB
has total_votes equal to the sum of its option counts. -/
theorem C9_total_votes_sum_witness :
    sampleSnapshot.total_votes
      = (sampleSnapshot.options.map OptionRow.votes).sum :=
  C9_total_votes_sum.1 "p1" sampleDB sampleSnapshot (by decide)

/-! ## Claim C10 -/

/-- C10: validatePollOptions rejects every list of more than 10 options and
every list containing two options equal after trimming and lowercasing,
and createPoll and updatePoll propagate the rejection as a validation
failure with no state change. -/
theorem C10_options_rejections :
    (∀ os : List String, 10 < os.length →
       (validatePollOptions os).isValid = false)
  ∧ (∀ os : List String,
       ¬ (os.map (fun o => jsToLower (jsTrim o))).Nodup →
       (validatePollOptions os).isValid = false)
  ∧ (∀ (ctx : Ctx) (pd : CreatePollData) (db : DB),
       (validatePollOptions pd.options).isValid = false →
       createPoll ctx pd db = (PollResult.err "Validation failed", db))
  ∧ (∀ (ctx : Ctx) (pollId : String) (u : UpdatePollData) (db : DB)
       (os : List String), u.options = some os →
       (validatePollOptions os).isValid = false →
       updatePoll ctx pollId u db = (PollResult.err "Validation failed", db)) :=
  ⟨fun _ h => validatePollOptions_long h,
   fun _ h => validatePollOptions_dup h,
   fun _ _ _ h => createPoll_rejects_options h,
   fun _ _ _ _ _ hos h => updatePoll_rejects_options hos h⟩

/-- Witness for C10: an 11-entry list is rejected, and a list whose entries
differ only by surrounding blanks and case is rejected. -/
theorem C10_options_rejections_witness :
    (validatePollOptions
      ["1", "2", "3", "4", "5", "6", "7", "8", "9", "10", "11"]).isValid
      = false
    ∧ (validatePollOptions [" Apple ", "apple", "pear"]).isValid = false :=
  ⟨C10_options_rejections.1 _ (by decide),
   C10_options_rejections.2.1 _ (by decide)⟩

/-! ## Claim C7 -/

/-- C7: every poll accepted by createPoll has at least 2 options whose ids
are pairwise distinct, and creation input with fewer than 2 options is
rejected with a validation error leaving the state untouched. -/
theorem C7_creation_invariant :
    (∀ (ctx : Ctx) (pd : CreatePollData) (db : DB) (P : Poll) (db2 : DB),
       createPoll ctx pd db = (PollResult.ok P, db2) →
       2 ≤ P.options.length ∧ (P.options.map OptionRow.id).Nodup)
  ∧ (∀ (ctx : Ctx) (pd : CreatePollData) (db : DB), pd.options.length < 2 →
       createPoll ctx pd db = (PollResult.err "Validation failed", db)) := by
  constructor
  · intro ctx pd db P db2 h
    unfold createPoll at h
    by_cases h1 : validateCreatePollData ctx.now pd
    · rw [if_neg (by simp [h1])] at h
      by_cases h2 : ctx.authed
      · rw [if_neg (by simp [h2])] at h
        simp only [Prod.mk.injEq, PollResult.ok.injEq] at h
        obtain ⟨h3, -⟩ := h
        subst h3
        have hopts : (validatePollOptions pd.options).isValid = true := by
          unfold validateCreatePollData at h1
          simp only [Bool.and_eq_true] at h1
          tauto
        refine ⟨?_, insertedOptions_ids_nodup _ _ _⟩
        show 2 ≤ (insertedOptions (db.nextId + 1) (genId db.nextId)
          pd.options).length
        rw [insertedOptions_length]
        exact validatePollOptions_min_length hopts
      · rw [if_pos (by simp [h2])] at h; exact absurd h (by simp)
    · rw [if_pos (by simp [h1])] at h; exact absurd h (by simp)
  · intro ctx pd db h
    exact createPoll_rejects_options (validatePollOptions_short h)

/-- Witness for C7: a concrete successful creation yields 2 options with
distinct ids. -/
theorem C7_creation_invariant_witness :
    2 ≤ sampleCreated.options.length
    ∧ (sampleCreated.options.map OptionRow.id).Nodup :=
  C7_creation_invariant.1 sampleCtx samplePD sampleDB sampleCreated
    sampleCreatedDB (by decide)

/-! ## Claim C8 -/

/-- C8: the Broadcast Hub unregister operation is idempotent — removing a
connection twice equals removing it once (total functions cannot throw) —
and it leaves the membership of every other connection unchanged. -/
theorem C8_unregister_idempotent (h : Hub) (c other : String)
    (hne : other ≠ c) :
    Hub.unregister c (Hub.unregister c h) = Hub.unregister c h
    ∧ (other ∈ (Hub.unregister c h).connections ↔ other ∈ h.connections) := by
  constructor
  · unfold Hub.unregister
    simp only [Hub.mk.injEq]
    rw [List.filter_filter]
    exact List.filter_congr (fun a _ => by simp)
  · unfold Hub.unregister
    simp [List.mem_filter, hne]

/-- Witness for C8 on a concrete registry of two connections. -/
theorem C8_unregister_idempotent_witness :
    Hub.unregister "a" (Hub.unregister "a" ⟨["a", "b"]⟩)
      = Hub.unregister "a" ⟨["a", "b"]⟩
    ∧ ("b" ∈ (Hub.unregister "a" ⟨["a", "b"]⟩).connections
        ↔ "b" ∈ (Hub.mk ["a", "b"]).connections) :=
  C8_unregister_idempotent ⟨["a", "b"]⟩ "a" "b" (by decide)

/-! ## Case analysis of voteOnPoll -/

theorem validateVoteData_of_trim {v : VoteData} (hvp : jsTrim v.poll_id ≠ "")
    (hvo : jsTrim v.option_id ≠ "") : validateVoteData v = true := by
  have h1 : v.poll_id ≠ "" := fun h => hvp (by rw [h, jsTrim_empty])
  have h2 : v.option_id ≠ "" := fun h => hvo (by rw [h, jsTrim_empty])
  simp [validateVoteData, bne_iff_ne, h1, h2, hvp, hvo]

theorem voteCheckPhase_some_facts {ctx : Ctx} {v : VoteData} {db : DB}
    {opt : OptionRow} (h : voteCheckPhase ctx v db = some opt) :
    validateVoteData v = true ∧ ctx.authed = true
    ∧ ∃ poll, selectSingle db.polls
          (fun p => p.id == v.poll_id && p.is_active) = some poll
        ∧ pollExpired ctx.now poll = false
        ∧ selectSingle db.poll_options
            (fun o => o.id == v.option_id && o.poll_id == v.poll_id)
            = some opt := by
  unfold voteCheckPhase at h
  by_cases h1 : validateVoteData v = true
  · rw [h1] at h
    simp only [Bool.not_true, Bool.false_eq_true, if_false] at h
    by_cases h2 : ctx.authed = true
    · rw [h2] at h
      simp only [Bool.not_true, Bool.false_eq_true, if_false] at h
      cases hsel : selectSingle db.polls
          (fun p => p.id == v.poll_id && p.is_active) with
      | none => rw [hsel] at h; exact absurd h (by simp)
      | some poll =>
        rw [hsel] at h
        dsimp only at h
        by_cases hexp : pollExpired ctx.now poll = true
        · rw [hexp] at h; simp at h
        · rw [Bool.not_eq_true] at hexp
          rw [hexp] at h
          simp only [Bool.false_eq_true, if_false] at h
          exact ⟨h1, h2, poll, rfl, hexp, h⟩
    · rw [Bool.not_eq_true] at h2
      rw [h2] at h
      simp at h
  · rw [Bool.not_eq_true] at h1
    rw [h1] at h
    simp at h

theorem voteOnPoll_cases (ctx : Ctx) (v : VoteData) (db : DB) :
    ((voteOnPoll ctx v db).2 = db
      ∧ isOkResult (voteOnPoll ctx v db).1 = false)
    ∨ ∃ opt, voteCheckPhase ctx v db = some opt
        ∧ voteOnPoll ctx v db
            = (getPoll v.poll_id (voteWritePhase v opt.votes db),
               voteWritePhase v opt.votes db) := by
  unfold voteOnPoll voteCheckPhase
  by_cases h1 : validateVoteData v = true
  · by_cases h2 : ctx.authed = true
    · cases hsel : selectSingle db.polls
          (fun p => p.id == v.poll_id && p.is_active) with
      | none => left; simp [h1, h2, hsel, isOkResult]
      | some poll =>
        by_cases hexp : pollExpired ctx.now poll = true
        · left; simp [h1, h2, hsel, hexp, isOkResult]
        · rw [Bool.not_eq_true] at hexp
          cases hopt : selectSingle db.poll_options
              (fun o => o.id == v.option_id && o.poll_id == v.poll_id) with
          | none => left; simp [h1, h2, hsel, hexp, hopt, isOkResult]
          | some opt =>
            right
            exact ⟨opt, by simp [h1, h2, hsel, hexp, hopt],
              by simp [h1, h2, hsel, hexp, hopt]⟩
    · rw [Bool.not_eq_true] at h2
      left; simp [h1, h2, isOkResult]
  · rw [Bool.not_eq_true] at h1
    left; simp [h1, isOkResult]

/-! ## Claim C4 -/

/-- C4: a failing voteOnPoll call, whatever the failure reason, leaves the
state untouched, and a successful call performs exactly one increment: the
polls table is unchanged, the options table changes only by adding one
vote to the rows carrying the voted id, and exactly one such row exists. -/
theorem C4_failure_atomicity (ctx : Ctx) (v : VoteData) (db : DB)
    (hnd : pollIdsNodup db) (hond : optionIdsNodup db) :
    (∀ msg : String, (voteOnPoll ctx v db).1 = PollResult.err msg →
       (voteOnPoll ctx v db).2 = db)
    ∧ (∀ P : Poll, (voteOnPoll ctx v db).1 = PollResult.ok P →
       (voteOnPoll ctx v db).2.polls = db.polls
       ∧ (voteOnPoll ctx v db).2.poll_options
           = db.poll_options.map (fun o =>
               if o.id == v.option_id then { o with votes := o.votes + 1 }
               else o)
       ∧ (db.poll_options.filter (fun o => o.id == v.option_id)).length
           = 1) := by
  rcases voteOnPoll_cases ctx v db with ⟨hun, hnok⟩ | ⟨opt, hcp, heq⟩
  · constructor
    · intro _ _; exact hun
    · intro P hP
      rw [hP] at hnok
      exact absurd hnok (by simp [isOkResult])
  · obtain ⟨hval, hauth, poll, hsel, hexp, hopt⟩ := voteCheckPhase_some_facts hcp
    obtain ⟨hfilterP, hmemP, hpredP⟩ := selectSingle_some_facts hsel
    obtain ⟨hfilterO, hmemO, hpredO⟩ := selectSingle_some_facts hopt
    rw [Bool.and_eq_true, beq_iff_eq] at hpredP
    obtain ⟨hpid, hact⟩ := hpredP
    rw [Bool.and_eq_true, beq_iff_eq, beq_iff_eq] at hpredO
    obtain ⟨hoid, hopid⟩ := hpredO
    have hgp : ∃ Q, getPoll v.poll_id (voteWritePhase v opt.votes db)
        = PollResult.ok Q := by
      unfold getPoll
      rw [show (voteWritePhase v opt.votes db).polls = db.polls from rfl]
      rw [selectSingle_eq_some_of_key PollRow.id hnd hmemP
        (by simp [hpid])
        (fun y hy => by rw [beq_iff_eq] at hy; rw [hy, hpid])]
      exact ⟨_, rfl⟩
    obtain ⟨Q, hQ⟩ := hgp
    constructor
    · intro msg hmsg
      rw [heq] at hmsg
      dsimp only at hmsg
      rw [hQ] at hmsg
      exact absurd hmsg (by simp)
    · intro P hP
      refine ⟨by rw [heq]; rfl, ?_, ?_⟩
      · rw [heq]
        show db.poll_options.map (fun o =>
            if o.id == v.option_id then { o with votes := opt.votes + 1 }
            else o)
          = db.poll_options.map (fun o =>
            if o.id == v.option_id then { o with votes := o.votes + 1 }
            else o)
        apply List.map_congr_left
        intro o ho
        by_cases hidm : (o.id == v.option_id) = true
        · have hoo : o = opt := List.inj_on_of_nodup_map hond ho hmemO
            (by rw [beq_iff_eq] at hidm; rw [hidm, hoid])
          subst hoo
          simp [hidm]
        · rw [Bool.not_eq_true] at hidm
          simp [hidm]
      · rw [filter_eq_singleton_of_key OptionRow.id hond hmemO
          (by simp [hoid])
          (fun y hy => by rw [beq_iff_eq] at hy; rw [hy, hoid])]
        rfl

/-- Witness for C4: a vote naming a missing option fails and leaves the
sample state untouched. -/
theorem C4_failure_atomicity_witness :
    (voteOnPoll sampleCtx ⟨"p1", "nope"⟩ sampleDB).2 = sampleDB :=
  (C4_failure_atomicity sampleCtx ⟨"p1", "nope"⟩ sampleDB (by decide)
    (by decide)).1 "Invalid option" (by decide)

/-! ## Claim C6 -/

/-- C6: every successful voteOnPoll call answers with the full poll
snapshot read back from the updated state, and that snapshot contains the
voted option with its count equal to the pre-call count plus one. -/
theorem C6_returns_updated_snapshot (ctx : Ctx) (v : VoteData) (db : DB)
    (P : Poll) (h : (voteOnPoll ctx v db).1 = PollResult.ok P) :
    getPoll v.poll_id (voteOnPoll ctx v db).2 = PollResult.ok P
    ∧ ∃ o ∈ db.poll_options, o.id = v.option_id ∧ o.poll_id = v.poll_id
        ∧ ∃ o2 ∈ P.options, o2.id = v.option_id ∧ o2.votes = o.votes + 1 := by
  rcases voteOnPoll_cases ctx v db with ⟨_, hnok⟩ | ⟨opt, hcp, heq⟩
  · rw [h] at hnok
    exact absurd hnok (by simp [isOkResult])
  · obtain ⟨hval, hauth, poll, hsel, hexp, hopt⟩ := voteCheckPhase_some_facts hcp
    obtain ⟨hfilterO, hmemO, hpredO⟩ := selectSingle_some_facts hopt
    rw [Bool.and_eq_true, beq_iff_eq, beq_iff_eq] at hpredO
    obtain ⟨hoid, hopid⟩ := hpredO
    have h1 : getPoll v.poll_id (voteOnPoll ctx v db).2
        = (voteOnPoll ctx v db).1 := by
      rw [heq]
    constructor
    · rw [h1, h]
    · rw [heq] at h
      dsimp only at h
      unfold getPoll at h
      cases hq : selectSingle (voteWritePhase v opt.votes db).polls
          (fun p => p.id == v.poll_id) with
      | none => rw [hq] at h; exact absurd h (by simp)
      | some q =>
        rw [hq] at h
        simp only [PollResult.ok.injEq] at h
        subst h
        refine ⟨opt, hmemO, hoid, hopid, ?_⟩
        refine ⟨{ opt with votes := opt.votes + 1 }, ?_, hoid, rfl⟩
        show ({ opt with votes := opt.votes + 1 } : OptionRow)
          ∈ (voteWritePhase v opt.votes db).poll_options.filter
              (fun o => o.poll_id == v.poll_id)
        rw [List.mem_filter]
        constructor
        · have h2 : ({ opt with votes := opt.votes + 1 } : OptionRow)
              = (fun o => if o.id == v.option_id
                  then { o with votes := opt.votes + 1 } else o) opt := by
            simp [hoid]
          rw [h2]
          exact List.mem_map_of_mem _ hmemO
        · simp [hopid]

/-- The snapshot a successful vote for option o1 returns on sampleDB. -/
def sampleVoted : Poll :=
  { id := "p1", title := "Best language", description := none,
    options := [{ id := "o1", poll_id := "p1", text := "TS", votes := 1,
                  order_index := 0 }, sampleOptionB],
    total_votes := 4, created_by := "u1", created_at := 0,
    expires_at := none, is_active := true }

/-- Witness for C6: the concrete snapshot returned for a vote on sampleDB
is the poll read back from the updated state. -/
theorem C6_returns_updated_snapshot_witness :
    getPoll "p1" (voteOnPoll sampleCtx ⟨"p1", "o1"⟩ sampleDB).2
      = PollResult.ok sampleVoted :=
  (C6_returns_updated_snapshot sampleCtx ⟨"p1", "o1"⟩ sampleDB sampleVoted
    (by decide)).1

/-! ## Claim C2 -/

/-- A state with no poll at all under id p1. -/
def dbMissingPoll : DB :=
  { polls := [], poll_options := [], nextId := 0 }

/-- A state where poll p1 exists but is deactivated. -/
def dbInactivePoll : DB :=
  { polls := [{ id := "p1", title := "Best language", description := none,
                created_by := "u1", created_at := 0, expires_at := none,
                is_active := false }],
    poll_options := [sampleOptionA], nextId := 0 }

/-- C2 counterexample: a vote against a non-existent poll and a vote
against a deactivated poll produce the identical caller-visible result
(the single message Poll not found or inactive), so a caller cannot tell
NotFound apart from Inactive, contrary to the claim. -/
theorem C2_counterexample :
    (voteOnPoll sampleCtx ⟨"p1", "o1"⟩ dbMissingPoll).1
      = PollResult.err "Poll not found or inactive"
    ∧ (voteOnPoll sampleCtx ⟨"p1", "o1"⟩ dbInactivePoll).1
      = PollResult.err "Poll not found or inactive"
    ∧ (voteOnPoll sampleCtx ⟨"p1", "o1"⟩ dbMissingPoll).1
      = (voteOnPoll sampleCtx ⟨"p1", "o1"⟩ dbInactivePoll).1 := by
  decide

/-- C2 as amended: voteOnPoll distinguishes exactly three failure kinds by
message — Poll not found or inactive when no active poll carries the id
(a missing poll and a deactivated poll are not distinguishable from each
other), This poll has expired for an active expired poll, and Invalid
option for an active current poll without the requested option — and the
three messages are pairwise distinct. -/
theorem C2_amended_error_taxonomy (ctx : Ctx) (v : VoteData) (db : DB)
    (hauth : ctx.authed = true) (hvp : jsTrim v.poll_id ≠ "")
    (hvo : jsTrim v.option_id ≠ "") (hnd : pollIdsNodup db) :
    ((∀ p ∈ db.polls, p.id = v.poll_id → p.is_active = false) →
       (voteOnPoll ctx v db).1 = PollResult.err "Poll not found or inactive")
    ∧ (∀ p ∈ db.polls, p.id = v.poll_id → p.is_active = true →
       pollExpired ctx.now p = true →
       (voteOnPoll ctx v db).1 = PollResult.err "This poll has expired")
    ∧ (∀ p ∈ db.polls, p.id = v.poll_id → p.is_active = true →
       pollExpired ctx.now p = false →
       (∀ o ∈ db.poll_options, o.id = v.option_id → o.poll_id ≠ v.poll_id) →
       (voteOnPoll ctx v db).1 = PollResult.err "Invalid option")
    ∧ ((PollResult.err "Poll not found or inactive" : PollResult Poll)
         ≠ PollResult.err "This poll has expired"
       ∧ (PollResult.err "Poll not found or inactive" : PollResult Poll)
         ≠ PollResult.err "Invalid option"
       ∧ (PollResult.err "This poll has expired" : PollResult Poll)
         ≠ PollResult.err "Invalid option") := by
  have hval := validateVoteData_of_trim hvp hvo
  refine ⟨?_, ?_, ?_, by decide⟩
  · intro hinact
    have hsel : selectSingle db.polls
        (fun p => p.id == v.poll_id && p.is_active) = none := by
      apply selectSingle_eq_none
      intro y hy
      by_cases hyid : y.id = v.poll_id
      · simp [hyid, hinact y hy hyid]
      · simp [hyid]
    simp [voteOnPoll, hval, hauth, hsel]
  · intro p hp hpid hact hexp
    have hsel : selectSingle db.polls
        (fun q => q.id == v.poll_id && q.is_active) = some p :=
      selectSingle_eq_some_of_key PollRow.id hnd hp (by simp [hpid, hact])
        (fun y hy => by
          rw [Bool.and_eq_true, beq_iff_eq] at hy
          rw [hy.1, hpid])
    simp [voteOnPoll, hval, hauth, hsel, hexp]
  · intro p hp hpid hact hexp hno
    have hsel : selectSingle db.polls
        (fun q => q.id == v.poll_id && q.is_active) = some p :=
      selectSingle_eq_some_of_key PollRow.id hnd hp (by simp [hpid, hact])
        (fun y hy => by
          rw [Bool.and_eq_true, beq_iff_eq] at hy
          rw [hy.1, hpid])
    have hopt : selectSingle db.poll_options
        (fun o => o.id == v.option_id && o.poll_id == v.poll_id) = none := by
      apply selectSingle_eq_none
      intro y hy
      by_cases hyid : y.id = v.option_id
      · simp [hyid, hno y hy hyid]
      · simp [hyid]
    simp [voteOnPoll, hval, hauth, hsel, hexp, hopt]

/-- Witness for C2 as amended: on the deactivated-poll state the call
answers with the merged not-found-or-inactive message. -/
theorem C2_amended_error_taxonomy_witness :
    (voteOnPoll sampleCtx ⟨"p1", "o1"⟩ dbInactivePoll).1
      = PollResult.err "Poll not found or inactive" :=
  (C2_amended_error_taxonomy sampleCtx ⟨"p1", "o1"⟩ dbInactivePoll
    (by decide) (by decide) (by decide) (by decide)).1 (by decide)

/-! ## Claim C5 -/

/-- A state where poll p1 is expired (expiry 10, before sampleCtx time 100)
and also deactivated. -/
def dbExpiredInactive : DB :=
  { polls := [{ id := "p1", title := "Best language", description := none,
                created_by := "u1", created_at := 0, expires_at := some 10,
                is_active := false }],
    poll_options := [sampleOptionA], nextId := 0 }

/-- A state where poll p1 is expired but still flagged active. -/
def dbExpiredActive : DB :=
  { polls := [{ id := "p1", title := "Best language", description := none,
                created_by := "u1", created_at := 0, expires_at := some 10,
                is_active := true }],
    poll_options := [sampleOptionA], nextId := 0 }

/-- C5 counterexample: the claim promises the Expired failure for every
poll past its expiry and every optionId, but an expired poll that is also
deactivated fails with Poll not found or inactive (the active-poll lookup
runs first), and a blank optionId on an expired active poll fails input
validation before the expiry test is reached. -/
theorem C5_counterexample :
    (voteOnPoll sampleCtx ⟨"p1", "o1"⟩ dbExpiredInactive).1
      = PollResult.err "Poll not found or inactive"
    ∧ (voteOnPoll sampleCtx ⟨"p1", ""⟩ dbExpiredActive).1
      = PollResult.err "Validation failed" := by
  decide

/-- C5 as amended: for every active poll with a non-blank id whose expiry
timestamp is strictly in the past, voteOnPoll fails with This poll has
expired for every non-blank optionId, existing or not — option validity is
never consulted. -/
theorem C5_amended_expired_before_option (ctx : Ctx) (v : VoteData)
    (db : DB) (p : PollRow) (hauth : ctx.authed = true)
    (hvp : jsTrim v.poll_id ≠ "") (hvo : jsTrim v.option_id ≠ "")
    (hnd : pollIdsNodup db) (hp : p ∈ db.polls) (hpid : p.id = v.poll_id)
    (hact : p.is_active = true) (hexp : pollExpired ctx.now p = true) :
    voteOnPoll ctx v db = (PollResult.err "This poll has expired", db) := by
  have hval := validateVoteData_of_trim hvp hvo
  have hsel : selectSingle db.polls
      (fun q => q.id == v.poll_id && q.is_active) = some p :=
    selectSingle_eq_some_of_key PollRow.id hnd hp (by simp [hpid, hact])
      (fun y hy => by
        rw [Bool.and_eq_true, beq_iff_eq] at hy
        rw [hy.1, hpid])
  simp [voteOnPoll, hval, hauth, hsel, hexp]

/-- Witness for C5 as amended: an expired active poll rejects a vote for a
non-existent option with the expiry message. -/
theorem C5_amended_expired_before_option_witness :
    voteOnPoll sampleCtx ⟨"p1", "zzz"⟩ dbExpiredActive
      = (PollResult.err "This poll has expired", dbExpiredActive) :=
  C5_amended_expired_before_option sampleCtx ⟨"p1", "zzz"⟩ dbExpiredActive
    { id := "p1", title := "Best language", description := none,
      created_by := "u1", created_at := 0, expires_at := some 10,
      is_active := true }
    (by decide) (by decide) (by decide) (by decide) (by decide) (by decide)
    (by decide) (by decide)

/-! ## Claim C1 -/

/-- Adding m votes to the rows carrying a given option id; one voteOnPoll
call moves the options table from bumpVotes applied with m to m plus one. -/
def bumpVotes (oid : String) (m : Nat) (o : OptionRow) : OptionRow :=
  if o.id == oid then { o with votes := o.votes + m } else o

theorem bumpVotes_row_id (oid : String) (m : Nat) (o : OptionRow) :
    (bumpVotes oid m o).id = o.id := by
  unfold bumpVotes
  split <;> rfl

theorem bumpVotes_row_poll_id (oid : String) (m : Nat) (o : OptionRow) :
    (bumpVotes oid m o).poll_id = o.poll_id := by
  unfold bumpVotes
  split <;> rfl

theorem bumpVotes_compose (oid : String) (m : Nat) (o : OptionRow) :
    bumpVotes oid m (bumpVotes oid 1 o) = bumpVotes oid (m + 1) o := by
  unfold bumpVotes
  by_cases h : (o.id == oid) = true
  · simp only [h, if_true]
    simp only [OptionRow.mk.injEq, true_and, and_true]
    omega
  · rw [Bool.not_eq_true] at h
    simp [h]

/-- A voteOnPoll call whose checks all pass succeeds and changes the state
by exactly one vote added to the rows with the voted option id. -/
theorem vote_success_step (ctx : Ctx) (v : VoteData) (db : DB)
    (hnd : pollIdsNodup db) (hond : optionIdsNodup db)
    (hauth : ctx.authed = true) (hvp : jsTrim v.poll_id ≠ "")
    (hvo : jsTrim v.option_id ≠ "")
    {p : PollRow} (hp : p ∈ db.polls) (hpid : p.id = v.poll_id)
    (hact : p.is_active = true) (hexp : pollExpired ctx.now p = false)
    {opt : OptionRow} (ho : opt ∈ db.poll_options)
    (hoid : opt.id = v.option_id) (hopid : opt.poll_id = v.poll_id) :
    isOkResult (voteOnPoll ctx v db).1 = true
    ∧ (voteOnPoll ctx v db).2
        = { db with poll_options :=
              db.poll_options.map (bumpVotes v.option_id 1) } := by
  have hval := validateVoteData_of_trim hvp hvo
  have hsel : selectSingle db.polls
      (fun q => q.id == v.poll_id && q.is_active) = some p :=
    selectSingle_eq_some_of_key PollRow.id hnd hp (by simp [hpid, hact])
      (fun y hy => by
        rw [Bool.and_eq_true, beq_iff_eq] at hy
        rw [hy.1, hpid])
  have hopt : selectSingle db.poll_options
      (fun o => o.id == v.option_id && o.poll_id == v.poll_id) = some opt :=
    selectSingle_eq_some_of_key OptionRow.id hond ho
      (by simp [hoid, hopid])
      (fun y hy => by
        rw [Bool.and_eq_true, beq_iff_eq, beq_iff_eq] at hy
        rw [hy.1, hoid])
  have hg : selectSingle (voteWritePhase v opt.votes db).polls
      (fun q => q.id == v.poll_id) = some p :=
    selectSingle_eq_some_of_key PollRow.id hnd hp (by simp [hpid])
      (fun y hy => by rw [beq_iff_eq] at hy; rw [hy, hpid])
  have hmap : db.poll_options.map (fun o =>
        if o.id == v.option_id then { o with votes := opt.votes + 1 }
        else o)
      = db.poll_options.map (bumpVotes v.option_id 1) := by
    apply List.map_congr_left
    intro o hom
    unfold bumpVotes
    by_cases hidm : (o.id == v.option_id) = true
    · have hoo : o = opt := List.inj_on_of_nodup_map hond hom ho
        (by rw [beq_iff_eq] at hidm; rw [hidm, hoid])
      subst hoo
      simp [hidm]
    · rw [Bool.not_eq_true] at hidm
      simp [hidm]
  constructor
  · simp [voteOnPoll, hval, hauth, hsel, hexp, hopt, getPoll, hg, isOkResult]
  · have h2 : (voteOnPoll ctx v db).2 = voteWritePhase v opt.votes db := by
      simp [voteOnPoll, hval, hauth, hsel, hexp, hopt]
    rw [h2]
    unfold voteWritePhase
    rw [hmap]

/-- Sequential voting invariant: starting from a state holding an active
current poll and a matching option, M sequential voteOnPoll calls all
succeed and move the options table by bumpVotes with M. -/
theorem voteNTimes_invariant (ctx : Ctx) (v : VoteData)
    (hauth : ctx.authed = true) (hvp : jsTrim v.poll_id ≠ "")
    (hvo : jsTrim v.option_id ≠ "") (M : Nat) :
    ∀ (db : DB), pollIdsNodup db → optionIdsNodup db →
    ∀ p ∈ db.polls, p.id = v.poll_id → p.is_active = true →
      pollExpired ctx.now p = false →
    ∀ opt ∈ db.poll_options, opt.id = v.option_id →
      opt.poll_id = v.poll_id →
    allVotesSucceed ctx v M db
    ∧ voteNTimes ctx v M db
        = { db with poll_options :=
              db.poll_options.map (bumpVotes v.option_id M) } := by
  induction M with
  | zero =>
    intro db hnd hond p hp hpid hact hexp opt ho hoid hopid
    refine ⟨trivial, ?_⟩
    show db = _
    have h0 : db.poll_options.map (bumpVotes v.option_id 0)
        = db.poll_options := by
      calc db.poll_options.map (bumpVotes v.option_id 0)
          = db.poll_options.map id := by
            apply List.map_congr_left
            intro o _
            show bumpVotes v.option_id 0 o = o
            unfold bumpVotes
            split <;> rfl
        _ = db.poll_options := List.map_id _
    rw [h0]
  | succ M ih =>
    intro db hnd hond p hp hpid hact hexp opt ho hoid hopid
    obtain ⟨hok, hstate⟩ := vote_success_step ctx v db hnd hond hauth hvp
      hvo hp hpid hact hexp ho hoid hopid
    have hpolls1 : (voteOnPoll ctx v db).2.polls = db.polls := by
      rw [hstate]
    have hopts1 : (voteOnPoll ctx v db).2.poll_options
        = db.poll_options.map (bumpVotes v.option_id 1) := by
      rw [hstate]
    have hnd1 : pollIdsNodup (voteOnPoll ctx v db).2 := by
      unfold pollIdsNodup
      rw [hpolls1]
      exact hnd
    have hond1 : optionIdsNodup (voteOnPoll ctx v db).2 := by
      unfold optionIdsNodup
      rw [hopts1, List.map_map]
      have hc : OptionRow.id ∘ bumpVotes v.option_id 1 = OptionRow.id := by
        funext o
        exact bumpVotes_row_id _ _ _
      rw [hc]
      exact hond
    have hp1 : p ∈ (voteOnPoll ctx v db).2.polls := by
      rw [hpolls1]; exact hp
    have ho1 : bumpVotes v.option_id 1 opt
        ∈ (voteOnPoll ctx v db).2.poll_options := by
      rw [hopts1]
      exact List.mem_map_of_mem _ ho
    obtain ⟨hsucc, hrec⟩ := ih (voteOnPoll ctx v db).2 hnd1 hond1 p hp1
      hpid hact hexp (bumpVotes v.option_id 1 opt) ho1
      (by rw [bumpVotes_row_id]; exact hoid)
      (by rw [bumpVotes_row_poll_id]; exact hopid)
    refine ⟨⟨hok, hsucc⟩, ?_⟩
    show voteNTimes ctx v M (voteOnPoll ctx v db).2 = _
    rw [hrec, hstate]
    have hml : (db.poll_options.map (bumpVotes v.option_id 1)).map (bumpVotes v.option_id M) = db.poll_options.map (bumpVotes v.option_id (M + 1)) := by
      rw [List.map_map]
      exact List.map_congr_left (fun o _ => bumpVotes_compose _ _ _)
    show ({ db with poll_options := (db.poll_options.map (bumpVotes v.option_id 1)).map (bumpVotes v.option_id M) } : DB) = { db with poll_options := db.poll_options.map (bumpVotes v.option_id (M + 1)) }
    rw [hml]

/-- C1 counterexample: the increment of voteOnPoll is a read-increment-
write (the update writes the count captured by the earlier option select,
plus one), so two concurrent successful calls can interleave as read,
read, write, write. Both calls pass every check against the initial state
and capture the pre-increment count 0 of option o1 — the same basis — and
after both writes the count is 1, not 0 plus 2; both calls nevertheless
report success (the read-back getPoll succeeds). The final conjunct checks
the phase split against voteOnPoll itself at this input. -/
theorem C1_lost_update_counterexample :
    voteCheckPhase sampleCtx ⟨"p1", "o1"⟩ sampleDB = some sampleOptionA
    ∧ sampleOptionA.votes = 0
    ∧ optionVotes (voteWritePhase ⟨"p1", "o1"⟩ sampleOptionA.votes
        (voteWritePhase ⟨"p1", "o1"⟩ sampleOptionA.votes sampleDB)) "o1"
      = [1]
    ∧ isOkResult (getPoll "p1"
        (voteWritePhase ⟨"p1", "o1"⟩ sampleOptionA.votes
          (voteWritePhase ⟨"p1", "o1"⟩ sampleOptionA.votes sampleDB)))
      = true
    ∧ voteOnPoll sampleCtx ⟨"p1", "o1"⟩ sampleDB
        = (getPoll "p1"
            (voteWritePhase ⟨"p1", "o1"⟩ sampleOptionA.votes sampleDB),
           voteWritePhase ⟨"p1", "o1"⟩ sampleOptionA.votes sampleDB) := by
  decide

/-- C1 as amended: M sequential (non-overlapping) voteOnPoll calls for an
option at count N all succeed and leave the count at exactly N plus M; the
concurrent form of the claim fails, per the recorded counterexample. -/
theorem C1_sequential_counting (ctx : Ctx) (v : VoteData) (db : DB)
    (M : Nat) (p : PollRow) (opt : OptionRow)
    (hauth : ctx.authed = true) (hvp : jsTrim v.poll_id ≠ "")
    (hvo : jsTrim v.option_id ≠ "")
    (hnd : pollIdsNodup db) (hond : optionIdsNodup db)
    (hp : p ∈ db.polls) (hpid : p.id = v.poll_id)
    (hact : p.is_active = true) (hexp : pollExpired ctx.now p = false)
    (ho : opt ∈ db.poll_options) (hoid : opt.id = v.option_id)
    (hopid : opt.poll_id = v.poll_id) :
    allVotesSucceed ctx v M db
    ∧ optionVotes db v.option_id = [opt.votes]
    ∧ optionVotes (voteNTimes ctx v M db) v.option_id
        = [opt.votes + M] := by
  obtain ⟨hsucc, hstate⟩ := voteNTimes_invariant ctx v hauth hvp hvo M db
    hnd hond p hp hpid hact hexp opt ho hoid hopid
  have hkey : ∀ y : OptionRow, (y.id == v.option_id) = true →
      y.id = opt.id := fun y hy => by
    rw [beq_iff_eq] at hy
    rw [hy, hoid]
  refine ⟨hsucc, ?_, ?_⟩
  · unfold optionVotes
    rw [filter_eq_singleton_of_key OptionRow.id hond ho (by simp [hoid])
      hkey]
    rfl
  · rw [hstate]
    unfold optionVotes
    show ((db.poll_options.map (bumpVotes v.option_id M)).filter
        (fun o => o.id == v.option_id)).map OptionRow.votes = _
    rw [List.filter_map]
    have hpred : ∀ o ∈ db.poll_options,
        ((fun o : OptionRow => o.id == v.option_id)
          ∘ bumpVotes v.option_id M) o
          = (fun o : OptionRow => o.id == v.option_id) o := by
      intro o _
      show ((bumpVotes v.option_id M o).id == v.option_id)
        = (o.id == v.option_id)
      rw [bumpVotes_row_id]
    rw [List.filter_congr hpred]
    rw [filter_eq_singleton_of_key OptionRow.id hond ho (by simp [hoid])
      hkey]
    simp [bumpVotes, hoid]

/-- Witness for C1 as amended: three sequential votes for option o1 of the
sample state all succeed and move its count from 0 to 3. -/
theorem C1_sequential_counting_witness :
    allVotesSucceed sampleCtx ⟨"p1", "o1"⟩ 3 sampleDB
    ∧ optionVotes sampleDB "o1" = [sampleOptionA.votes]
    ∧ optionVotes (voteNTimes sampleCtx ⟨"p1", "o1"⟩ 3 sampleDB) "o1"
        = [sampleOptionA.votes + 3] :=
  C1_sequential_counting sampleCtx ⟨"p1", "o1"⟩ sampleDB 3 samplePollRow
    sampleOptionA (by decide) (by decide) (by decide) (by decide)
    (by decide) (by decide) (by decide) (by decide) (by decide) (by decide)
    (by decide) (by decide)

/-! ## Claim C3 -/

theorem noVoteLowered_refl (l : List OptionRow) : noVoteLowered l l :=
  List.forall₂_same.2 (fun _ _ => ⟨rfl, rfl, le_rfl⟩)

theorem insertedOptions_poll_id {base : Nat} {pid : String}
    {ts : List String} {o : OptionRow}
    (ho : o ∈ insertedOptions base pid ts) : o.poll_id = pid := by
  unfold insertedOptions at ho
  rw [List.mem_map] at ho
  obtain ⟨pr, -, rfl⟩ := ho
  rfl

theorem insertedOptions_votes_list (base : Nat) (pid : String)
    (ts : List String) :
    (insertedOptions base pid ts).map OptionRow.votes
      = List.replicate ts.length 0 := by
  unfold insertedOptions
  rw [List.map_map]
  have hc : OptionRow.votes ∘ (fun pr : Nat × String =>
      ({ id := genId (base + pr.1), poll_id := pid, text := jsTrim pr.2,
         votes := 0, order_index := pr.1 } : OptionRow))
      = fun _ => 0 := rfl
  rw [hc, List.map_const', List.enum_length]

/-- The state dbWithVotes: poll p1 owned by u1 whose options hold 5 and 3
recorded votes. -/
def dbWithVotes : DB :=
  { polls := [samplePollRow],
    poll_options := [{ id := "o1", poll_id := "p1", text := "TS",
                       votes := 5, order_index := 0 },
                     { id := "o2", poll_id := "p1", text := "JS",
                       votes := 3, order_index := 1 }],
    nextId := 0 }

/-- An update request that only supplies a new options list. -/
def updOpts : UpdatePollData :=
  { title := none, description := none, options := some ["X", "Y"],
    expires_at := none, is_active := none }

/-- The ownership check always fails when a non-empty userId string is
passed, as updatePoll and deletePoll do: the compared user.id is the
undefined value of a string. -/
theorem checkPollOwnership_passed_id_false (ctxUserId pollId : String)
    (db : DB) (huid : ctxUserId ≠ "") :
    checkPollOwnership (some ctxUserId) ctxUserId pollId db = false := by
  unfold checkPollOwnership
  cases hsel : selectSingle db.polls (fun p => p.id == pollId) with
  | none => rfl
  | some p => simp [huid]

/-- With an authenticated non-empty user id, updatePoll always fails
before touching any table: its ownership check compares created_by with
the id field of the passed-in user-id string, which is undefined. -/
theorem updatePoll_state_unchanged (ctx : Ctx) (pid : String)
    (u : UpdatePollData) (db : DB) (huid : ctx.userId ≠ "") :
    (updatePoll ctx pid u db).2 = db := by
  have hown := checkPollOwnership_passed_id_false ctx.userId pid db huid
  unfold updatePoll
  by_cases hv : validateUpdatePollData ctx.now u = true
  · rw [hv]
    simp only [Bool.not_true, Bool.false_eq_true, if_false]
    by_cases ha : ctx.authed = true
    · rw [ha]
      simp only [Bool.not_true, Bool.false_eq_true, if_false]
      rw [hown]
      rfl
    · rw [Bool.not_eq_true] at ha
      rw [ha]
      rfl
  · rw [Bool.not_eq_true] at hv
    rw [hv]
    rfl

/-- C3: for every poll, option vote counts are monotonically
non-decreasing — voteOnPoll never lowers any option row's count,
updatePoll leaves the state entirely unchanged (for an authenticated
caller with a non-empty user id its ownership check compares created_by
with the id field of the passed-in user-id string, which is undefined, so
it always fails and the option-resetting branch is never reached), and
createPoll only appends option rows. -/
theorem C3_votes_never_lowered :
    (∀ (ctx : Ctx) (v : VoteData) (db : DB), optionIdsNodup db →
       noVoteLowered db.poll_options (voteOnPoll ctx v db).2.poll_options)
    ∧ (∀ (ctx : Ctx) (pid : String) (u : UpdatePollData) (db : DB),
       ctx.userId ≠ "" →
       (updatePoll ctx pid u db).2 = db
       ∧ noVoteLowered db.poll_options
           (updatePoll ctx pid u db).2.poll_options)
    ∧ (∀ (ctx : Ctx) (pd : CreatePollData) (db : DB), ∃ added,
       (createPoll ctx pd db).2.poll_options = db.poll_options ++ added) := by
  refine ⟨?_, ?_, ?_⟩
  · intro ctx v db hond
    rcases voteOnPoll_cases ctx v db with ⟨hun, -⟩ | ⟨opt, hcp, heq⟩
    · rw [hun]
      exact noVoteLowered_refl _
    · obtain ⟨-, -, -, -, -, hopt⟩ := voteCheckPhase_some_facts hcp
      obtain ⟨-, hmemO, hpredO⟩ := selectSingle_some_facts hopt
      rw [Bool.and_eq_true, beq_iff_eq, beq_iff_eq] at hpredO
      obtain ⟨hoid, -⟩ := hpredO
      rw [heq]
      show noVoteLowered db.poll_options (db.poll_options.map (fun o =>
        if o.id == v.option_id then { o with votes := opt.votes + 1 }
        else o))
      unfold noVoteLowered
      rw [List.forall₂_map_right_iff]
      apply List.forall₂_same.2
      intro o ho
      by_cases hidm : (o.id == v.option_id) = true
      · have hoo : o = opt := List.inj_on_of_nodup_map hond ho hmemO
          (by rw [beq_iff_eq] at hidm; rw [hidm, hoid])
        subst hoo
        simp [hidm]
      · rw [Bool.not_eq_true] at hidm
        simp [hidm]
  · intro ctx pid u db huid
    have hst := updatePoll_state_unchanged ctx pid u db huid
    refine ⟨hst, ?_⟩
    rw [hst]
    exact noVoteLowered_refl _
  · intro ctx pd db
    unfold createPoll
    by_cases hv : validateCreatePollData ctx.now pd = true
    · rw [hv]
      simp only [Bool.not_true, Bool.false_eq_true, if_false]
      by_cases ha : ctx.authed = true
      · rw [ha]
        simp only [Bool.not_true, Bool.false_eq_true, if_false]
        exact ⟨insertedOptions (db.nextId + 1) (genId db.nextId) pd.options,
          rfl⟩
      · rw [Bool.not_eq_true] at ha
        rw [ha]
        exact ⟨[], (List.append_nil _).symm⟩
    · rw [Bool.not_eq_true] at hv
      rw [hv]
      exact ⟨[], (List.append_nil _).symm⟩

/-- Witness for C3: a vote on the sample state lowers no count, and even
the poll's own creator u1 cannot reach the option-resetting update — the
options-supplied update on dbWithVotes leaves the state untouched. -/
theorem C3_votes_never_lowered_witness :
    noVoteLowered sampleDB.poll_options
      (voteOnPoll sampleCtx ⟨"p1", "o1"⟩ sampleDB).2.poll_options
    ∧ (updatePoll sampleCtx "p1" updOpts dbWithVotes).2 = dbWithVotes :=
  ⟨C3_votes_never_lowered.1 sampleCtx ⟨"p1", "o1"⟩ sampleDB (by decide),
   (C3_votes_never_lowered.2.1 sampleCtx "p1" updOpts dbWithVotes
     (by decide)).1⟩

end AlxPolly
